import Mathlib

/-
  Verification of the GenAiGenesis legal research pipeline against its design
  specification.  The repository ships the pipeline documentation and its
  recorded end-to-end results; the structured content of every recorded result
  is embedded below, and the components whose implementation is documented but
  not shipped (EmbeddingCache, VectorSearchEngine, WebSearchModule,
  DataPipeline) are modelled from the specification text.
-/

set_option autoImplicit false

namespace GenAiGenesis

/-- Sections of the synthesis output contract: legal principles and statutes,
application to the stated facts, limitations and further research, and
practical next steps. -/
inductive SynSection where
  | principles
  | application
  | limitations
  | nextSteps
  deriving DecidableEq, Repr

/-- Structured content of one recorded end-to-end pipeline result, transcribed
from the JSON result records in the repository (src/backend/results and the
further result records stored beside them).  For each record we keep: the query
id, the set of keys of the client_understanding object, the three structured
research_focus lists with the character length of the free-text raw_analysis,
the vector_results list, the source domains of internet_results, which of the
four contract sections have a heading in the synthesis text, the character
length of the synthesis, whether a final_response object is present, and
whether any is_partial key occurs anywhere in the record. -/
structure ResultRecord where
  queryId : String
  cuKeys : List String
  domains : List String
  concepts : List String
  keywords : List String
  rawAnalysisLen : Nat
  vectorResults : List String
  internetSources : List String
  sections : List SynSection
  synthesisLen : Nat
  hasFinalResponse : Bool
  hasIsPartialField : Bool
  deriving DecidableEq, Repr

/-- Recorded result for the tenant-rights query.  Synthesis headings: Legal
Principles and Application, Practical Considerations, Limitations and Further
Research; no practical-next-steps heading. -/
def query_1742719720 : ResultRecord :=
  { queryId := "query_1742719720"
    cuKeys := ["error"]
    domains := []
    concepts := []
    keywords := []
    rawAnalysisLen := 588
    vectorResults := []
    internetSources := ["www.findlaw.com", "www.hud.gov", "www.justia.com"]
    sections := [.principles, .application, .limitations]
    synthesisLen := 3777
    hasFinalResponse := true
    hasIsPartialField := false }

/-- Recorded result for the employment-based visa query. -/
def query_1742721646 : ResultRecord :=
  { queryId := "query_1742721646"
    cuKeys := ["error"]
    domains := []
    concepts := []
    keywords := []
    rawAnalysisLen := 857
    vectorResults := []
    internetSources := ["www.law.cornell.edu", "www.law.cornell.edu", "www.supremecourt.gov"]
    sections := [.principles, .application, .limitations, .nextSteps]
    synthesisLen := 3473
    hasFinalResponse := true
    hasIsPartialField := false }

/-- Recorded result for a what-is-a-contract query, stored in the same file as
query_1742721646. -/
def query_1742722375 : ResultRecord :=
  { queryId := "query_1742722375"
    cuKeys := ["error"]
    domains := []
    concepts := []
    keywords := []
    rawAnalysisLen := 612
    vectorResults := []
    internetSources := ["www.law.cornell.edu", "www.findlaw.com", "www.law.cornell.edu"]
    sections := [.principles, .application, .limitations, .nextSteps]
    synthesisLen := 3168
    hasFinalResponse := true
    hasIsPartialField := false }

/-- Recorded result for the second employment-based visa query. -/
def query_1742721670 : ResultRecord :=
  { queryId := "query_1742721670"
    cuKeys := ["error"]
    domains := []
    concepts := []
    keywords := []
    rawAnalysisLen := 786
    vectorResults := []
    internetSources := ["www.law.cornell.edu", "www.law.cornell.edu", "www.supremecourt.gov"]
    sections := [.principles, .application, .limitations, .nextSteps]
    synthesisLen := 2757
    hasFinalResponse := true
    hasIsPartialField := false }

/-- Recorded result for the California eviction query, stored in the same file
as query_1742721670.  Synthesis headings: Relevant Legal Principles and
Statutes, Application to the Client Situation, Next Steps; no limitations
heading. -/
def query_1742720720 : ResultRecord :=
  { queryId := "query_1742720720"
    cuKeys := ["error"]
    domains := []
    concepts := []
    keywords := []
    rawAnalysisLen := 839
    vectorResults := []
    internetSources := ["www.justia.com", "www.findlaw.com", "www.hud.gov"]
    sections := [.principles, .application, .nextSteps]
    synthesisLen := 2441
    hasFinalResponse := true
    hasIsPartialField := false }

/-- Recorded result for the second what-is-a-contract query. -/
def query_1742722475 : ResultRecord :=
  { queryId := "query_1742722475"
    cuKeys := ["error"]
    domains := []
    concepts := []
    keywords := []
    rawAnalysisLen := 191
    vectorResults := []
    internetSources := ["www.law.cornell.edu", "www.findlaw.com", "www.law.cornell.edu"]
    sections := [.principles, .application, .limitations, .nextSteps]
    synthesisLen := 2470
    hasFinalResponse := true
    hasIsPartialField := false }

/-- Recorded result for the unfair-eviction query. -/
def query_1742725933 : ResultRecord :=
  { queryId := "query_1742725933"
    cuKeys := ["error"]
    domains := []
    concepts := []
    keywords := []
    rawAnalysisLen := 590
    vectorResults := []
    internetSources := ["www.hud.gov", "www.findlaw.com", "www.findlaw.com"]
    sections := [.principles, .application, .limitations, .nextSteps]
    synthesisLen := 3255
    hasFinalResponse := true
    hasIsPartialField := false }

/-- Recorded result for the single-letter query. -/
def query_1742720775 : ResultRecord :=
  { queryId := "query_1742720775"
    cuKeys := ["error"]
    domains := []
    concepts := []
    keywords := []
    rawAnalysisLen := 548
    vectorResults := []
    internetSources := ["www.justice.gov", "store.westlaw.com", "www.mow.uscourts.gov"]
    sections := [.principles, .application, .limitations, .nextSteps]
    synthesisLen := 3717
    hasFinalResponse := true
    hasIsPartialField := false }

/-- Recorded result for the second unfair-eviction query. -/
def query_1742726160 : ResultRecord :=
  { queryId := "query_1742726160"
    cuKeys := ["error"]
    domains := []
    concepts := []
    keywords := []
    rawAnalysisLen := 263
    vectorResults := []
    internetSources := ["www.hud.gov", "www.findlaw.com", "www.findlaw.com"]
    sections := [.principles, .application, .limitations, .nextSteps]
    synthesisLen := 3026
    hasFinalResponse := true
    hasIsPartialField := false }

/-- Recorded result for the third what-is-a-contract query. -/
def query_1742722127 : ResultRecord :=
  { queryId := "query_1742722127"
    cuKeys := ["error"]
    domains := []
    concepts := []
    keywords := []
    rawAnalysisLen := 617
    vectorResults := []
    internetSources := ["www.law.cornell.edu", "www.findlaw.com", "www.law.cornell.edu"]
    sections := [.principles, .application, .limitations, .nextSteps]
    synthesisLen := 3725
    hasFinalResponse := true
    hasIsPartialField := false }

/-- Recorded pipeline test result for the valid-contract query (the one record
whose client_understanding carries an analysis instead of an error). -/
def pipeline_test_20250323 : ResultRecord :=
  { queryId := "pipeline_test_20250323"
    cuKeys := ["original_query", "analysis", "embeddings"]
    domains := []
    concepts := []
    keywords := []
    rawAnalysisLen := 469
    vectorResults := []
    internetSources := ["www.law.cornell.edu", "www.findlaw.com", "www.findlaw.com"]
    sections := [.principles, .application, .limitations, .nextSteps]
    synthesisLen := 2361
    hasFinalResponse := true
    hasIsPartialField := false }

/-- Every recorded end-to-end pipeline result present in the repository. -/
def pipelineResults : List ResultRecord :=
  [query_1742719720, query_1742721646, query_1742722375, query_1742721670,
   query_1742720720, query_1742722475, query_1742725933, query_1742720775,
   query_1742726160, query_1742722127, pipeline_test_20250323]

/-- Structured content of one recorded ResearchSynthesisChain output (the
research_result files), transcribed the same way as the pipeline records.
These records have keys synthesis, query, sources, citations, timestamp. -/
structure SynthesisRecord where
  queryText : String
  sourceUrls : List String
  sections : List SynSection
  synthesisLen : Nat
  citationsNull : Bool
  hasIsPartialField : Bool
  deriving DecidableEq, Repr

/-- Recorded synthesis output for the Fair Housing Act query, first file.
The synthesis is free prose with none of the four contract section headings. -/
def research_result_20250322_175011 : SynthesisRecord :=
  { queryText := "What are the key protections under the Fair Housing Act?"
    sourceUrls := ["https://www.law.cornell.edu/wex/constitutional_law",
                   "https://www.law.cornell.edu/wex/civil_rights",
                   "https://www.law.cornell.edu/wex/criminal_law"]
    sections := []
    synthesisLen := 3669
    citationsNull := true
    hasIsPartialField := false }

/-- Recorded synthesis output for the Fair Housing Act query, second file.
The synthesis is free prose with none of the four contract section headings. -/
def research_result_20250322_175240 : SynthesisRecord :=
  { queryText := "What are the key protections under the Fair Housing Act?"
    sourceUrls := ["https://www.law.cornell.edu/wex/constitutional_law",
                   "https://www.law.cornell.edu/wex/civil_rights",
                   "https://www.law.cornell.edu/wex/criminal_law"]
    sections := []
    synthesisLen := 2803
    citationsNull := true
    hasIsPartialField := false }

/-- Every recorded standalone synthesis output present in the repository. -/
def synthesisResults : List SynthesisRecord :=
  [research_result_20250322_175011, research_result_20250322_175240]

/-- C10: in every recorded research result the structured research_focus
fields domains, concepts and keywords are empty lists, and the query analysis
content is carried only in the non-empty free-text raw_analysis field. -/
theorem research_focus_structured_fields_empty (r : ResultRecord)
    (h : r ∈ pipelineResults) :
    r.domains = [] ∧ r.concepts = [] ∧ r.keywords = [] ∧ 0 < r.rawAnalysisLen := by
  fin_cases h <;> refine ⟨rfl, rfl, rfl, ?_⟩ <;> decide

/-- Witness for C10 at the recorded tenant-rights result. -/
theorem research_focus_structured_fields_empty_witness :
    query_1742719720.domains = [] ∧ query_1742719720.concepts = [] ∧
      query_1742719720.keywords = [] ∧ 0 < query_1742719720.rawAnalysisLen :=
  research_focus_structured_fields_empty query_1742719720 (List.Mem.head _)

/-- C9: in every recorded pipeline result whose client-understanding stage
produced only an error object, the research stage still produced a non-empty
analysis and synthesis and a final response is present, so the failure did not
abort the pipeline and the error stayed inside the client_understanding
field. -/
theorem client_error_pipeline_continues (r : ResultRecord)
    (h : r ∈ pipelineResults) (he : r.cuKeys = ["error"]) :
    0 < r.rawAnalysisLen ∧ 0 < r.synthesisLen ∧ r.hasFinalResponse = true := by
  fin_cases h <;> refine ⟨?_, ?_, rfl⟩ <;> decide

/-- Witness for C9 at the recorded tenant-rights result, whose
client_understanding object holds only the missing-attribute error. -/
theorem client_error_pipeline_continues_witness :
    0 < query_1742719720.rawAnalysisLen ∧ 0 < query_1742719720.synthesisLen ∧
      query_1742719720.hasFinalResponse = true :=
  client_error_pipeline_continues query_1742719720 (List.Mem.head _) rfl

/-- C3 counterexample: the recorded Fair Housing synthesis output is missing
required sections (its synthesis text carries none of the four contract
section headings, in particular no limitations section), yet the stored record
has no is_partial field at all, so the result was returned without is_partial
being set to true. -/
theorem synthesis_missing_section_without_flag :
    SynSection.limitations ∉ research_result_20250322_175011.sections ∧
      SynSection.nextSteps ∉ research_result_20250322_175011.sections ∧
      research_result_20250322_175011.hasIsPartialField = false ∧
      0 < research_result_20250322_175011.synthesisLen := by
  refine ⟨?_, ?_, rfl, ?_⟩ <;> decide

/-- C3 amended: every recorded synthesis output, including those missing
required sections, is returned rather than rejected (the pipeline records all
carry a final response and a non-empty synthesis), but no is_partial flag is
ever recorded: the field is absent from every recorded result. -/
theorem synthesis_outputs_returned_unflagged :
    (∀ r ∈ pipelineResults,
        0 < r.synthesisLen ∧ r.hasFinalResponse = true ∧ r.hasIsPartialField = false) ∧
      ∀ s ∈ synthesisResults, 0 < s.synthesisLen ∧ s.hasIsPartialField = false := by
  constructor
  · intro r h
    fin_cases h <;> refine ⟨?_, rfl, rfl⟩ <;> decide
  · intro s h
    fin_cases h <;> refine ⟨?_, rfl⟩ <;> decide

/-- Witness for the amended C3 at the recorded tenant-rights result and the
first recorded Fair Housing synthesis output. -/
theorem synthesis_outputs_returned_unflagged_witness :
    (0 < query_1742719720.synthesisLen ∧ query_1742719720.hasFinalResponse = true ∧
        query_1742719720.hasIsPartialField = false) ∧
      0 < research_result_20250322_175011.synthesisLen ∧
        research_result_20250322_175011.hasIsPartialField = false :=
  ⟨synthesis_outputs_returned_unflagged.1 query_1742719720 (List.Mem.head _),
   synthesis_outputs_returned_unflagged.2 research_result_20250322_175011 (List.Mem.head _)⟩

/-
  EmbeddingCache.  The implementing module (services/client_agent.py with its
  Redis-backed embedding cache) is documented in the repository READMEs but the
  module itself is not shipped, so the cache is modelled from the
  specification.
-/

/-- Whitespace test used by the text normalization below. -/
def isSpaceChar (c : Char) : Bool := c = ' ' || c = '\n' || c = '\t' || c = '\r'

/-- Modelled from the spec: inputs are stripped of surrounding whitespace
before keying the cache (the missing embedding cache normalizes text before
hashing). -/
def normalizeText (t : String) : String :=
  String.mk ((((t.data).dropWhile isSpaceChar).reverse.dropWhile isSpaceChar).reverse)

/-- Modelled from the spec: a cache entry stores the embedding vector, its
creation time and its time-to-live (the missing CacheEntry record). -/
structure CacheEntry where
  value : List Int
  createdAt : Nat
  ttl : Nat
  deriving DecidableEq, Repr

/-- Modelled from the spec: the default TTL of 24 hours, in seconds. -/
def defaultTTL : Nat := 24 * 60 * 60

/-- A cache key pairs the normalized text with the model identifier. -/
abbrev CacheKey := String × String

/-- Modelled from the spec: entries are keyed by the normalized text together
with the model version. -/
def cacheKey (text modelId : String) : CacheKey := (normalizeText text, modelId)

/-- First entry of an association list with the given key, if any. -/
def lookupAssoc : List (CacheKey × CacheEntry) → CacheKey → Option CacheEntry
  | [], _ => none
  | (k₀, e) :: rest, k => if k₀ = k then some e else lookupAssoc rest k

/-- Modelled from the spec: the durable key-to-vector store of the missing
embedding cache, as an association list of entries. -/
structure CacheState where
  entries : List (CacheKey × CacheEntry)
  deriving DecidableEq, Repr

/-- Entry lookup in a cache state. -/
def lookupEntry (st : CacheState) (k : CacheKey) : Option CacheEntry :=
  lookupAssoc st.entries k

/-- Atomic per-key write: the new entry shadows any previous one. -/
def insertEntry (st : CacheState) (k : CacheKey) (e : CacheEntry) : CacheState :=
  ⟨(k, e) :: st.entries⟩

/-- Modelled from the spec: an entry is fresh while its age does not exceed its
TTL; entries older than TTL are treated as misses. -/
def entryFresh (e : CacheEntry) (now : Nat) : Bool := now - e.createdAt ≤ e.ttl

/-- Result of one get_or_compute call: the vector handed to the caller, the
cache state afterwards, and how many upstream embedding-service calls were
issued. -/
structure EmbedOutcome where
  vector : List Int
  state : CacheState
  upstreamCalls : Nat
  deriving DecidableEq, Repr

/-- Modelled from the spec: get_or_compute returns the stored vector with no
external call on a hit within TTL; on a miss, or on an expired entry, it
computes via the embedding capability, stores the result keyed by the
normalized text and model id, and returns it.  The embedding service is an
explicit deterministic oracle argument. -/
def get_or_compute (embed : String → String → List Int) (st : CacheState)
    (now : Nat) (text modelId : String) : EmbedOutcome :=
  let k := cacheKey text modelId
  match lookupEntry st k with
  | some e =>
      if entryFresh e now then ⟨e.value, st, 0⟩
      else
        let v := embed (normalizeText text) modelId
        ⟨v, insertEntry st k ⟨v, now, defaultTTL⟩, 1⟩
  | none =>
      let v := embed (normalizeText text) modelId
      ⟨v, insertEntry st k ⟨v, now, defaultTTL⟩, 1⟩

theorem lookupEntry_insertEntry (st : CacheState) (k : CacheKey) (e : CacheEntry) :
    lookupEntry (insertEntry st k e) k = some e := by
  simp [lookupEntry, insertEntry, lookupAssoc]

/-- Equation lemma: a fresh hit returns the stored vector, the unchanged state
and zero upstream calls. -/
theorem get_or_compute_hit (embed : String → String → List Int)
    (st : CacheState) (now : Nat) (text modelId : String) (e : CacheEntry)
    (he : lookupEntry st (cacheKey text modelId) = some e)
    (hf : entryFresh e now = true) :
    get_or_compute embed st now text modelId = ⟨e.value, st, 0⟩ := by
  unfold get_or_compute
  simp [he, hf]

/-- Equation lemma: a miss computes upstream and stores the fresh entry. -/
theorem get_or_compute_miss (embed : String → String → List Int)
    (st : CacheState) (now : Nat) (text modelId : String)
    (he : lookupEntry st (cacheKey text modelId) = none) :
    get_or_compute embed st now text modelId =
      ⟨embed (normalizeText text) modelId,
       insertEntry st (cacheKey text modelId)
         ⟨embed (normalizeText text) modelId, now, defaultTTL⟩, 1⟩ := by
  unfold get_or_compute
  simp [he]

/-- Equation lemma: an expired entry behaves exactly as a miss. -/
theorem get_or_compute_stale (embed : String → String → List Int)
    (st : CacheState) (now : Nat) (text modelId : String) (e : CacheEntry)
    (he : lookupEntry st (cacheKey text modelId) = some e)
    (hf : entryFresh e now = false) :
    get_or_compute embed st now text modelId =
      ⟨embed (normalizeText text) modelId,
       insertEntry st (cacheKey text modelId)
         ⟨embed (normalizeText text) modelId, now, defaultTTL⟩, 1⟩ := by
  unfold get_or_compute
  simp [he, hf]

/-- After any get_or_compute call the cache holds an entry for the key whose
value is exactly the returned vector. -/
theorem get_or_compute_state_entry (embed : String → String → List Int)
    (st : CacheState) (now : Nat) (text modelId : String) :
    ∃ e, lookupEntry (get_or_compute embed st now text modelId).state
          (cacheKey text modelId) = some e ∧
        e.value = (get_or_compute embed st now text modelId).vector := by
  cases h : lookupEntry st (cacheKey text modelId) with
  | none =>
      rw [get_or_compute_miss embed st now text modelId h]
      exact ⟨_, lookupEntry_insertEntry _ _ _, rfl⟩
  | some e =>
      cases hf : entryFresh e now with
      | true =>
          rw [get_or_compute_hit embed st now text modelId e h hf]
          exact ⟨e, h, rfl⟩
      | false =>
          rw [get_or_compute_stale embed st now text modelId e h hf]
          exact ⟨_, lookupEntry_insertEntry _ _ _, rfl⟩

/-- C2: calling get_or_compute twice for the same (text, model) pair, with the
second call made while the entry left by the first call is still within its
TTL window, returns the same vector on both calls and issues zero upstream
embedding-service calls on the second call. -/
theorem get_or_compute_second_call_cached (embed : String → String → List Int)
    (st : CacheState) (t₁ t₂ : Nat) (text modelId : String)
    (hwin : ((lookupEntry (get_or_compute embed st t₁ text modelId).state
        (cacheKey text modelId)).all fun e => entryFresh e t₂) = true) :
    (get_or_compute embed (get_or_compute embed st t₁ text modelId).state
        t₂ text modelId).vector
      = (get_or_compute embed st t₁ text modelId).vector ∧
    (get_or_compute embed (get_or_compute embed st t₁ text modelId).state
        t₂ text modelId).upstreamCalls = 0 := by
  obtain ⟨e, he, hv⟩ := get_or_compute_state_entry embed st t₁ text modelId
  rw [he] at hwin
  simp only [Option.all] at hwin
  rw [get_or_compute_hit embed _ t₂ text modelId e he hwin]
  exact ⟨hv, rfl⟩

/-- Witness for C2: a concrete embedding oracle, an empty cache, a first call
at time 0 and a second call ten seconds later. -/
theorem get_or_compute_second_call_cached_witness :
    (get_or_compute (fun _ _ => [3, 1, 4])
        (get_or_compute (fun _ _ => [3, 1, 4]) ⟨[]⟩ 0 "tenant rights"
          "embed-english-v3.0").state
        10 "tenant rights" "embed-english-v3.0").vector
      = (get_or_compute (fun _ _ => [3, 1, 4]) ⟨[]⟩ 0 "tenant rights"
          "embed-english-v3.0").vector ∧
    (get_or_compute (fun _ _ => [3, 1, 4])
        (get_or_compute (fun _ _ => [3, 1, 4]) ⟨[]⟩ 0 "tenant rights"
          "embed-english-v3.0").state
        10 "tenant rights" "embed-english-v3.0").upstreamCalls = 0 :=
  get_or_compute_second_call_cached (fun _ _ => [3, 1, 4]) ⟨[]⟩ 0 10
    "tenant rights" "embed-english-v3.0" (by decide)

/-- C6: a read of a cache entry whose age exceeds its TTL behaves exactly as a
miss: get_or_compute recomputes the vector through the embedding service (one
upstream call), returns the freshly computed vector rather than the stale
stored one, and overwrites the entry; being a total function it raises no
error. -/
theorem expired_entry_recomputes (embed : String → String → List Int)
    (st : CacheState) (now : Nat) (text modelId : String) (e : CacheEntry)
    (hlook : lookupEntry st (cacheKey text modelId) = some e)
    (hstale : entryFresh e now = false) :
    (get_or_compute embed st now text modelId).vector
        = embed (normalizeText text) modelId ∧
      (get_or_compute embed st now text modelId).upstreamCalls = 1 ∧
      lookupEntry (get_or_compute embed st now text modelId).state
          (cacheKey text modelId)
        = some ⟨embed (normalizeText text) modelId, now, defaultTTL⟩ := by
  unfold get_or_compute
  simp [hlook, hstale, lookupEntry_insertEntry]

/-- Witness for C6: an entry created at time 0 with the default TTL of 24
hours, read 25 hours later. -/
theorem expired_entry_recomputes_witness :
    (get_or_compute (fun _ _ => [2, 7])
        ⟨[(cacheKey "statute of frauds" "embed-english-v3.0", ⟨[9, 9], 0, defaultTTL⟩)]⟩
        90000 "statute of frauds" "embed-english-v3.0").vector = [2, 7] ∧
      (get_or_compute (fun _ _ => [2, 7])
        ⟨[(cacheKey "statute of frauds" "embed-english-v3.0", ⟨[9, 9], 0, defaultTTL⟩)]⟩
        90000 "statute of frauds" "embed-english-v3.0").upstreamCalls = 1 ∧
      lookupEntry
          (get_or_compute (fun _ _ => [2, 7])
            ⟨[(cacheKey "statute of frauds" "embed-english-v3.0", ⟨[9, 9], 0, defaultTTL⟩)]⟩
            90000 "statute of frauds" "embed-english-v3.0").state
          (cacheKey "statute of frauds" "embed-english-v3.0")
        = some ⟨[2, 7], 90000, defaultTTL⟩ :=
  expired_entry_recomputes (fun _ _ => [2, 7])
    ⟨[(cacheKey "statute of frauds" "embed-english-v3.0", ⟨[9, 9], 0, defaultTTL⟩)]⟩
    90000 "statute of frauds" "embed-english-v3.0" ⟨[9, 9], 0, defaultTTL⟩
    (by decide) (by decide)

/-- Modelled from the spec: the cache backend, a durable Redis key/value store
together with the process-local bounded fallback cache of the most recent N
keys and the connectivity state of the store. -/
structure FallbackCache where
  redisUp : Bool
  redis : CacheState
  localEntries : List (CacheKey × CacheEntry)
  localBound : Nat
  deriving DecidableEq, Repr

/-- Modelled from the spec: a Redis lookup is a network call that fails when
the backing store is unreachable. -/
def redisLookup (b : FallbackCache) (k : CacheKey) : Except String (Option CacheEntry) :=
  if b.redisUp then .ok (lookupAssoc b.redis.entries k)
  else .error "redis connection failed"

/-- Insertion into the bounded process-local fallback cache: the new entry is
the most recent and the cache keeps at most localBound entries. -/
def localInsert (b : FallbackCache) (k : CacheKey) (e : CacheEntry) : FallbackCache :=
  { b with localEntries := ((k, e) :: b.localEntries).take b.localBound }

/-- Modelled from the spec: get_or_compute over the fallible backend.  When the
Redis lookup succeeds the durable store is used as in get_or_compute; upon
connectivity failure the operation silently degrades to the process-local
bounded cache, computing directly when that also misses, and never surfaces
the connectivity failure to the caller. -/
def get_or_compute_fb (embed : String → String → List Int) (b : FallbackCache)
    (now : Nat) (text modelId : String) :
    Except String (List Int × FallbackCache × Nat) :=
  let k := cacheKey text modelId
  match redisLookup b k with
  | .ok (some e) =>
      if entryFresh e now then .ok (e.value, b, 0)
      else
        let v := embed (normalizeText text) modelId
        .ok (v, { b with redis := insertEntry b.redis k ⟨v, now, defaultTTL⟩ }, 1)
  | .ok none =>
      let v := embed (normalizeText text) modelId
      .ok (v, { b with redis := insertEntry b.redis k ⟨v, now, defaultTTL⟩ }, 1)
  | .error _ =>
      match lookupAssoc b.localEntries k with
      | some e =>
          if entryFresh e now then .ok (e.value, b, 0)
          else
            let v := embed (normalizeText text) modelId
            .ok (v, localInsert b k ⟨v, now, defaultTTL⟩, 1)
      | none =>
          let v := embed (normalizeText text) modelId
          .ok (v, localInsert b k ⟨v, now, defaultTTL⟩, 1)

/-- C8: every get_or_compute lookup issued while the Redis backing store is
unreachable still returns a result to the caller through the process-local
fallback cache: the outcome is ok, never an error, and the durable store is
left untouched. -/
theorem redis_down_lookup_still_ok (embed : String → String → List Int)
    (b : FallbackCache) (now : Nat) (text modelId : String)
    (hdown : b.redisUp = false) :
    ∃ v b' n, get_or_compute_fb embed b now text modelId = .ok (v, b', n) ∧
      b'.redis = b.redis := by
  have hr : redisLookup b (cacheKey text modelId) = .error "redis connection failed" := by
    simp [redisLookup, hdown]
  simp only [get_or_compute_fb]
  rw [hr]
  cases hl : lookupAssoc b.localEntries (cacheKey text modelId) with
  | none =>
      exact ⟨embed (normalizeText text) modelId,
        localInsert b (cacheKey text modelId)
          ⟨embed (normalizeText text) modelId, now, defaultTTL⟩, 1, rfl, rfl⟩
  | some e =>
      cases hf : entryFresh e now with
      | true =>
          refine ⟨e.value, b, 0, ?_, rfl⟩
          simp [hf]
      | false =>
          refine ⟨embed (normalizeText text) modelId,
            localInsert b (cacheKey text modelId)
              ⟨embed (normalizeText text) modelId, now, defaultTTL⟩, 1, ?_, rfl⟩
          simp [hf]

/-- Witness for C8: a backend whose Redis connection is down and whose local
fallback cache is empty. -/
theorem redis_down_lookup_still_ok_witness :
    ∃ v b' n,
      get_or_compute_fb (fun _ _ => [5, 5]) ⟨false, ⟨[]⟩, [], 100⟩ 7
          "adverse possession" "embed-english-v3.0" = .ok (v, b', n) ∧
        b'.redis = FallbackCache.redis ⟨false, ⟨[]⟩, [], 100⟩ :=
  redis_down_lookup_still_ok (fun _ _ => [5, 5]) ⟨false, ⟨[]⟩, [], 100⟩ 7
    "adverse possession" "embed-english-v3.0" rfl

/-
  VectorSearchEngine.  The engine (vector search over named ChromaDB
  collections with S3-backed persistence) is documented in the repository but
  its module is not shipped, so it is modelled from the specification.
-/

/-- Modelled from the spec: a stored document of a collection index, carrying
its embedding vector together with the recency and source-authority rank used
to break score ties. -/
structure StoredDoc where
  docId : String
  embedding : List Int
  recency : Nat
  authority : Nat
  deriving DecidableEq, Repr

/-- First collection of a named-collection list with the given name. -/
def lookupColl : List (String × List StoredDoc) → String → Option (List StoredDoc)
  | [], _ => none
  | (n, ds) :: rest, name => if n = name then some ds else lookupColl rest name

/-- Replace the named collection (or append it when absent). -/
def setColl : List (String × List StoredDoc) → String → List StoredDoc →
    List (String × List StoredDoc)
  | [], name, docs => [(name, docs)]
  | (n, ds) :: rest, name, docs =>
      if n = name then (name, docs) :: rest else (n, ds) :: setColl rest name docs

/-- Modelled from the spec: the in-memory engine holds the named collections
of the vector store. -/
structure SearchEngine where
  collections : List (String × List StoredDoc)
  deriving DecidableEq, Repr

/-- Documents of a named collection; an unknown collection holds no
documents. -/
def getCollection (e : SearchEngine) (name : String) : List StoredDoc :=
  (lookupColl e.collections name).getD []

/-- Similarity score of two vectors, as an inner product. -/
def dot : List Int → List Int → Int
  | [], _ => 0
  | _, [] => 0
  | a :: as, b :: bs => a * b + dot as bs

/-- Modelled from the spec: ranking order of scored documents, by score, then
by document recency, then by source-authority rank (all descending). -/
def rankedBefore (a b : StoredDoc × Int) : Bool :=
  if a.2 = b.2 then
    if a.1.recency = b.1.recency then b.1.authority ≤ a.1.authority
    else b.1.recency < a.1.recency
  else b.2 < a.2

/-- Insertion into a ranked list. -/
def insertRanked (d : StoredDoc × Int) : List (StoredDoc × Int) → List (StoredDoc × Int)
  | [] => [d]
  | x :: xs => if rankedBefore d x then d :: x :: xs else x :: insertRanked d xs

/-- Insertion sort by ranking order. -/
def sortRanked : List (StoredDoc × Int) → List (StoredDoc × Int)
  | [] => []
  | x :: xs => insertRanked x (sortRanked xs)

theorem mem_insertRanked (d x : StoredDoc × Int) (l : List (StoredDoc × Int)) :
    x ∈ insertRanked d l ↔ x = d ∨ x ∈ l := by
  induction l with
  | nil => simp [insertRanked]
  | cons y ys ih =>
      by_cases h : rankedBefore d y
      · simp [insertRanked, h, or_assoc]
      · simp [insertRanked, h, ih]
        tauto

theorem mem_sortRanked (x : StoredDoc × Int) (l : List (StoredDoc × Int)) :
    x ∈ sortRanked l ↔ x ∈ l := by
  induction l with
  | nil => simp [sortRanked]
  | cons y ys ih => simp [sortRanked, mem_insertRanked, ih]

theorem length_insertRanked (d : StoredDoc × Int) (l : List (StoredDoc × Int)) :
    (insertRanked d l).length = l.length + 1 := by
  induction l with
  | nil => simp [insertRanked]
  | cons y ys ih =>
      by_cases h : rankedBefore d y
      · simp [insertRanked, h]
      · simp [insertRanked, h, ih]

theorem length_sortRanked (l : List (StoredDoc × Int)) :
    (sortRanked l).length = l.length := by
  induction l with
  | nil => rfl
  | cons y ys ih => simp [sortRanked, length_insertRanked, ih]

/-- Modelled from the spec: nearest-neighbour search over one named
collection: every document is scored against the query vector, ranked, and
the top_k results are kept. -/
def searchCollection (e : SearchEngine) (q : List Int) (name : String)
    (topK : Nat) : List (StoredDoc × Int) :=
  (sortRanked ((getCollection e name).map fun d => (d, dot q d.embedding))).take topK

/-- Modelled from the spec: multi-collection search merges the per-collection
results by the same ranking order and keeps the top_k; a collection with zero
documents simply contributes nothing, and no error is ever raised. -/
def search (e : SearchEngine) (q : List Int) (names : List String)
    (topK : Nat) : Except String (List (StoredDoc × Int)) :=
  .ok ((sortRanked (names.flatMap fun n => searchCollection e q n topK)).take topK)

/-- C7: searching a collection that contains zero documents returns the empty
result list wrapped in ok, never an error. -/
theorem search_empty_collection_ok_nil (e : SearchEngine) (q : List Int)
    (c : String) (topK : Nat) (h : getCollection e c = []) :
    search e q [c] topK = .ok [] := by
  simp [search, searchCollection, h, sortRanked]

/-- Witness for C7: an engine whose case_law collection exists and is
empty. -/
theorem search_empty_collection_ok_nil_witness :
    search ⟨[("case_law", [])]⟩ [1, 2, 3] ["case_law"] 5 = .ok [] :=
  search_empty_collection_ok_nil ⟨[("case_law", [])]⟩ [1, 2, 3] "case_law" 5 (by decide)

/-- Modelled from the spec: the durable object store (the S3 bucket under the
vector_db key space), the long-lived owner of collection state. -/
structure DurableStore where
  objects : List (String × List StoredDoc)
  deriving DecidableEq, Repr

/-- Modelled from the spec: the engine state pairs the in-memory index with
the names of the collections mutated since the last flush. -/
structure EngineState where
  engine : SearchEngine
  dirty : List String
  deriving DecidableEq, Repr

/-- Modelled from the spec: add updates the local index and marks the
collection dirty. -/
def add_document (st : EngineState) (c : String) (d : StoredDoc) : EngineState :=
  ⟨⟨setColl st.engine.collections c (getCollection st.engine c ++ [d])⟩, c :: st.dirty⟩

/-- Modelled from the spec: the manual sync operation forces an immediate
flush of the named collection to the durable object store and clears its
dirty mark. -/
def sync_collection (st : EngineState) (store : DurableStore) (c : String) :
    EngineState × DurableStore :=
  (⟨st.engine, st.dirty.filter fun n => decide (¬ n = c)⟩,
   ⟨setColl store.objects c (getCollection st.engine c)⟩)

/-- Modelled from the spec: on process start the engine hydrates all
collections from the durable store before serving queries. -/
def hydrate (store : DurableStore) : EngineState := ⟨⟨store.objects⟩, []⟩

theorem lookupColl_setColl (cs : List (String × List StoredDoc)) (name : String)
    (docs : List StoredDoc) : lookupColl (setColl cs name docs) name = some docs := by
  induction cs with
  | nil => simp [setColl, lookupColl]
  | cons p rest ih =>
      by_cases h : p.1 = name
      · simp [setColl, h, lookupColl]
      · simp [setColl, h, lookupColl, ih]

/-- C4: adding a document to a collection, forcing a sync, and freshly
hydrating from the durable object store yields a state in which the document
is retrievable by search: with a top_k that covers the collection, search on
the hydrated collection answers ok and its results contain the document. -/
theorem add_sync_hydrate_round_trip (st : EngineState) (store : DurableStore)
    (c : String) (d : StoredDoc) (q : List Int) (topK : Nat)
    (hk : (getCollection st.engine c).length + 1 ≤ topK) :
    ∃ results,
      search (hydrate (sync_collection (add_document st c d) store c).2).engine
          q [c] topK = .ok results ∧
        (d, dot q d.embedding) ∈ results := by
  have hcoll :
      getCollection (hydrate (sync_collection (add_document st c d) store c).2).engine c
        = getCollection st.engine c ++ [d] := by
    simp [hydrate, sync_collection, add_document, getCollection, lookupColl_setColl]
  have hsc :
      searchCollection (hydrate (sync_collection (add_document st c d) store c).2).engine
          q c topK
        = sortRanked ((getCollection st.engine c ++ [d]).map fun x =>
            (x, dot q x.embedding)) := by
    unfold searchCollection
    rw [hcoll]
    apply List.take_of_length_le
    rw [length_sortRanked, List.length_map, List.length_append]
    simpa using hk
  refine ⟨_, rfl, ?_⟩
  have hflat :
      [c].flatMap (fun n =>
          searchCollection (hydrate (sync_collection (add_document st c d) store c).2).engine
            q n topK)
        = sortRanked ((getCollection st.engine c ++ [d]).map fun x =>
            (x, dot q x.embedding)) := by
    simp [hsc]
  rw [hflat, List.take_of_length_le]
  · rw [mem_sortRanked, mem_sortRanked, List.mem_map]
    exact ⟨d, by simp, rfl⟩
  · rw [length_sortRanked, length_sortRanked, List.length_map, List.length_append]
    simpa using hk

/-- Witness for C4: an empty engine and store, one concrete case-law document,
top_k of five. -/
theorem add_sync_hydrate_round_trip_witness :
    ∃ results,
      search (hydrate (sync_collection
            (add_document ⟨⟨[]⟩, []⟩ "case_law" ⟨"brown_v_board", [1, 0], 1954, 3⟩)
            ⟨[]⟩ "case_law").2).engine [1, 1] ["case_law"] 5 = .ok results ∧
        (⟨"brown_v_board", [1, 0], 1954, 3⟩, dot [1, 1] [1, 0]) ∈ results :=
  add_sync_hydrate_round_trip ⟨⟨[]⟩, []⟩ ⟨[]⟩ "case_law"
    ⟨"brown_v_board", [1, 0], 1954, 3⟩ [1, 1] 5 (by decide)

/-
  DataPipeline.  The ingestion pipeline (data_pipeline/pipeline.py with its
  DocumentProcessor, MetadataExtractor and EmbeddingGenerator) is documented
  in the repository READMEs but not shipped, so it is modelled from the
  specification.
-/

/-- Words of a text, splitting on whitespace; the accumulator carries the
current word reversed. -/
def splitWordsAux : List Char → List Char → List (List Char)
  | [], acc => if acc = [] then [] else [acc.reverse]
  | c :: cs, acc =>
      if isSpaceChar c then
        if acc = [] then splitWordsAux cs [] else acc.reverse :: splitWordsAux cs []
      else splitWordsAux cs (c :: acc)

/-- Word list of a text. -/
def wordsOf (t : String) : List (List Char) := splitWordsAux t.data []

/-- Number of words of a text. -/
def wordCount (t : String) : Nat := (wordsOf t).length

/-- Modelled from the spec: text normalization collapses all whitespace runs
to single spaces and drops surrounding whitespace. -/
def normalizeDocText (t : String) : String :=
  String.mk (List.intercalate [' '] (wordsOf t))

/-- Modelled from the spec behind the design notes: the tagged document types
of the bounded taxonomy. -/
inductive LegalDocType where
  | caseLaw
  | statute
  | regulation
  | webContent
  deriving DecidableEq, Repr

/-- Numeric value of a digit character. -/
def digitVal (c : Char) : Nat := c.toNat - 48

/-- A four-digit word read as a year. -/
def wordToYear (w : List Char) : Option Nat :=
  if w.length = 4 ∧ w.all Char.isDigit then
    some (w.foldl (fun n c => n * 10 + digitVal c) 0)
  else none

/-- Modelled from the spec: date extraction by a pattern rule, the first
four-digit year in the text. -/
def extractYear (ws : List (List Char)) : Option Nat := ws.findSome? wordToYear

/-- Modelled from the spec: jurisdiction extraction by a heuristic word
rule. -/
def extractJurisdiction (ws : List (List Char)) : String :=
  if "United".data ∈ ws ∨ "Federal".data ∈ ws then "US" else "Unknown"

/-- Modelled from the spec: document-type classification by structural and
content word heuristics. -/
def classifyWords (ws : List (List Char)) : LegalDocType :=
  if "v.".data ∈ ws ∨ "plaintiff".data ∈ ws then .caseLaw
  else if "statute".data ∈ ws ∨ "Act".data ∈ ws then .statute
  else if "regulation".data ∈ ws ∨ "rule".data ∈ ws then .regulation
  else .webContent

/-- Modelled from the spec: a raw source file handed to the pipeline; a
malformed file is one whose text extraction yields nothing. -/
structure RawSource where
  name : String
  payload : Option String
  deriving DecidableEq, Repr

/-- Modelled from the spec: a processed Document with its extracted metadata
and embedding vector. -/
structure PipelineDocument where
  docId : String
  normalizedText : String
  jurisdiction : String
  year : Option Nat
  docType : LegalDocType
  embedding : List Int
  deriving DecidableEq, Repr

/-- Stage one, text extraction: fails on a malformed source. -/
def extractText (s : RawSource) : Except String String :=
  match s.payload with
  | some t => .ok t
  | none => .error "text extraction failed"

/-- Modelled from the spec: the minimum word count of the quality gate. -/
def minWordCount : Nat := 10

/-- Modelled from the spec: quality verification checks the minimum word
count, the embedding dimensionality, and a basic distribution sanity check
(the vector is not identically zero). -/
def verifyQuality (expectedDim : Nat) (t : String) (vec : List Int) : Bool :=
  minWordCount ≤ wordCount t ∧ vec.length = expectedDim ∧ vec.any fun x => decide (¬ x = 0)

/-- Outcome of processing one source file. -/
inductive Outcome where
  | succeeded (d : PipelineDocument)
  | failed (err : String)
  | skipped (reason : String)
  deriving DecidableEq, Repr

/-- Modelled from the spec: process runs the stages in order — extract,
normalize, extract metadata, embed, verify quality; extraction failure gives
a failed outcome and quality rejection a skipped one. -/
def process (embed : String → List Int) (expectedDim : Nat) (s : RawSource) : Outcome :=
  match extractText s with
  | .error e => .failed e
  | .ok raw =>
      let t := normalizeDocText raw
      let ws := wordsOf t
      let vec := embed t
      if verifyQuality expectedDim t vec then
        .succeeded ⟨s.name, t, extractJurisdiction ws, extractYear ws, classifyWords ws, vec⟩
      else .skipped "quality verification failed"

/-- Batch statistics reported by process_documents. -/
structure BatchStats where
  succeeded : Nat
  failed : Nat
  skipped : Nat
  deriving DecidableEq, Repr

/-- One step of the batch fold: account for the outcome of one source. -/
def batchStep (embed : String → List Int) (expectedDim : Nat)
    (acc : BatchStats × List PipelineDocument) (s : RawSource) :
    BatchStats × List PipelineDocument :=
  match process embed expectedDim s with
  | .succeeded d => ({ acc.1 with succeeded := acc.1.succeeded + 1 }, acc.2 ++ [d])
  | .failed _ => ({ acc.1 with failed := acc.1.failed + 1 }, acc.2)
  | .skipped _ => ({ acc.1 with skipped := acc.1.skipped + 1 }, acc.2)

/-- Modelled from the spec: process_documents processes every file of the
batch, accumulating failures into the statistics instead of aborting. -/
def process_documents (embed : String → List Int) (expectedDim : Nat)
    (files : List RawSource) : BatchStats × List PipelineDocument :=
  files.foldl (batchStep embed expectedDim) (⟨0, 0, 0⟩, [])

/-- Whether processing a source succeeds. -/
def procSucceeds (embed : String → List Int) (expectedDim : Nat) (s : RawSource) : Bool :=
  match process embed expectedDim s with
  | .succeeded _ => true
  | _ => false

/-- Whether processing a source fails. -/
def procFails (embed : String → List Int) (expectedDim : Nat) (s : RawSource) : Bool :=
  match process embed expectedDim s with
  | .failed _ => true
  | _ => false

/-- Whether processing a source is skipped by the quality gate. -/
def procSkipped (embed : String → List Int) (expectedDim : Nat) (s : RawSource) : Bool :=
  match process embed expectedDim s with
  | .skipped _ => true
  | _ => false

theorem process_documents_foldl (embed : String → List Int) (expectedDim : Nat)
    (files : List RawSource) (acc : BatchStats × List PipelineDocument) :
    (files.foldl (batchStep embed expectedDim) acc).1.succeeded
        = acc.1.succeeded + files.countP (procSucceeds embed expectedDim) ∧
      (files.foldl (batchStep embed expectedDim) acc).1.failed
        = acc.1.failed + files.countP (procFails embed expectedDim) ∧
      (files.foldl (batchStep embed expectedDim) acc).1.skipped
        = acc.1.skipped + files.countP (procSkipped embed expectedDim) ∧
      (files.foldl (batchStep embed expectedDim) acc).2.length
        = acc.2.length + files.countP (procSucceeds embed expectedDim) := by
  induction files generalizing acc with
  | nil => simp
  | cons s rest ih =>
      obtain ⟨ih1, ih2, ih3, ih4⟩ := ih (batchStep embed expectedDim acc s)
      refine ⟨?_, ?_, ?_, ?_⟩
      · rw [List.foldl_cons, ih1, List.countP_cons]
        cases h : process embed expectedDim s <;>
          simp [batchStep, h, procSucceeds] <;> omega
      · rw [List.foldl_cons, ih2, List.countP_cons]
        cases h : process embed expectedDim s <;>
          simp [batchStep, h, procFails] <;> omega
      · rw [List.foldl_cons, ih3, List.countP_cons]
        cases h : process embed expectedDim s <;>
          simp [batchStep, h, procSkipped] <;> omega
      · rw [List.foldl_cons, ih4, List.countP_cons]
        cases h : process embed expectedDim s <;>
          simp [batchStep, h, procSucceeds] <;> omega

theorem countP_partition_eq_length {α : Type} (p q : α → Bool) (l : List α)
    (h : ∀ a ∈ l, p a = !q a) : l.countP p + l.countP q = l.length := by
  induction l with
  | nil => simp
  | cons x xs ih =>
      have hx := h x (by simp)
      have hxs := ih fun a ha => h a (by simp [ha])
      cases hq : q x <;>
        simp [List.countP_cons, hx, hq] <;> omega

/-- C5: on a batch in which exactly one file is malformed and every other
file processes successfully, process_documents reports succeeded = N - 1 and
failed = 1, and processing is not aborted: all N - 1 remaining files yield
documents. -/
theorem process_documents_isolates_failure (embed : String → List Int)
    (expectedDim : Nat) (files : List RawSource)
    (h1 : files.countP (procFails embed expectedDim) = 1)
    (h2 : ∀ s ∈ files, procFails embed expectedDim s = false →
      procSucceeds embed expectedDim s = true) :
    (process_documents embed expectedDim files).1.succeeded = files.length - 1 ∧
      (process_documents embed expectedDim files).1.failed = 1 ∧
      (process_documents embed expectedDim files).2.length = files.length - 1 := by
  obtain ⟨hs, hf, _, hd⟩ :=
    process_documents_foldl embed expectedDim files (⟨0, 0, 0⟩, [])
  have hpart : files.countP (procSucceeds embed expectedDim)
      + files.countP (procFails embed expectedDim) = files.length := by
    apply countP_partition_eq_length
    intro a ha
    cases hfa : procFails embed expectedDim a with
    | true =>
        simp only [Bool.not_true]
        revert hfa
        unfold procFails procSucceeds
        cases process embed expectedDim a <;> simp
    | false => simp [h2 a ha hfa]
  unfold process_documents
  rw [hs, hf, hd, h1]
  simp only [List.length_nil] at *
  refine ⟨?_, ?_, ?_⟩ <;> simp <;> omega

/-- Witness for C5: a batch of three files, the second malformed, the others
well-formed with enough words and a well-dimensioned non-zero embedding. -/
theorem process_documents_isolates_failure_witness :
    (process_documents (fun _ => [1, 2]) 2
        [⟨"case_0.txt", some "the quick brown fox jumps over the lazy sleeping dog today"⟩,
         ⟨"broken.pdf", none⟩,
         ⟨"case_1.txt", some "a landlord must give proper written notice before any eviction starts"⟩]).1.succeeded
        = 2 ∧
      (process_documents (fun _ => [1, 2]) 2
        [⟨"case_0.txt", some "the quick brown fox jumps over the lazy sleeping dog today"⟩,
         ⟨"broken.pdf", none⟩,
         ⟨"case_1.txt", some "a landlord must give proper written notice before any eviction starts"⟩]).1.failed
        = 1 ∧
      (process_documents (fun _ => [1, 2]) 2
        [⟨"case_0.txt", some "the quick brown fox jumps over the lazy sleeping dog today"⟩,
         ⟨"broken.pdf", none⟩,
         ⟨"case_1.txt", some "a landlord must give proper written notice before any eviction starts"⟩]).2.length
        = 2 :=
  process_documents_isolates_failure (fun _ => [1, 2]) 2
    [⟨"case_0.txt", some "the quick brown fox jumps over the lazy sleeping dog today"⟩,
     ⟨"broken.pdf", none⟩,
     ⟨"case_1.txt", some "a landlord must give proper written notice before any eviction starts"⟩]
    (by decide) (by decide)

/-
  WebSearchModule.  The web search module (data_pipeline/web_search.py) is
  documented in the repository READMEs but not shipped, so it is modelled
  from the specification; the allow-list of authorized domains, whose config
  file is also absent, is an explicit parameter.
-/

/-- Modelled from the spec: one raw search-provider hit. -/
structure SearchHit where
  url : String
  title : String
  snippet : String
  deriving DecidableEq, Repr

/-- Host part of a URL: the scheme is dropped and the characters up to the
first slash are kept. -/
def urlDomain (url : String) : String :=
  let cs := url.data
  let rest :=
    if ("https://".data).isPrefixOf cs then cs.drop 8
    else if ("http://".data).isPrefixOf cs then cs.drop 7
    else cs
  String.mk (rest.takeWhile fun c => decide (¬ c = '/'))

/-- Boolean membership check of a domain in the allow-list. -/
def memStr : List String → String → Bool
  | [], _ => false
  | s :: rest, x => if s = x then true else memStr rest x

theorem memStr_eq_mem (l : List String) (x : String) : memStr l x = true ↔ x ∈ l := by
  induction l with
  | nil => simp [memStr]
  | cons s rest ih =>
      by_cases h : s = x
      · simp [memStr, h]
      · simp [memStr, h, ih]
        exact fun hx => (h hx.symm).elim

/-- Modelled from the spec: the legal domain of a query, detected by the same
content heuristics as document classification. -/
def detectDomain (query : String) : LegalDocType := classifyWords (wordsOf query)

/-- Modelled from the spec: a document produced by the web search module. -/
structure WebDoc where
  title : String
  body : String
  docType : LegalDocType
  sourceUrl : String
  deriving DecidableEq, Repr

/-- Modelled from the spec: the small built-in set of default legal documents
per detected domain, returned when no authorized result exists. -/
def fallbackDocs : LegalDocType → List WebDoc
  | .caseLaw =>
      [⟨"Default case law digest", "curated summaries of foundational court opinions",
        .caseLaw, "builtin://case_law/defaults"⟩]
  | .statute =>
      [⟨"Default statute digest", "curated summaries of core statutory law",
        .statute, "builtin://statutes/defaults"⟩]
  | .regulation =>
      [⟨"Default regulation digest", "curated summaries of administrative rules",
        .regulation, "builtin://regulations/defaults"⟩]
  | .webContent =>
      [⟨"Default legal overview", "curated general legal research notes",
        .webContent, "builtin://web/defaults"⟩]

theorem fallbackDocs_ne_nil (k : LegalDocType) : fallbackDocs k ≠ [] := by
  cases k <;> simp [fallbackDocs]

/-- Outcome of search_and_process: the processed documents, the authorized
URLs found, and whether the built-in fallback set was used. -/
structure WebSearchOutcome where
  documents : List WebDoc
  urlsFound : List String
  usedFallback : Bool
  deriving DecidableEq, Repr

/-- Modelled from the spec: search_and_process takes the provider hits up to
max_results, discards every URL whose domain is not on the allow-list before
any fetch, turns the remaining hits into classified documents, and on zero
authorized results returns the built-in fallback documents of the detected
query domain instead of an empty set. -/
def search_and_process (authorized : List String) (provider : String → List SearchHit)
    (query : String) (maxResults : Nat) : WebSearchOutcome :=
  if (((provider query).take maxResults).filter fun h =>
      memStr authorized (urlDomain h.url)).isEmpty then
    ⟨fallbackDocs (detectDomain query), [], true⟩
  else
    ⟨(((provider query).take maxResults).filter fun h =>
        memStr authorized (urlDomain h.url)).map fun h =>
          ⟨h.title, h.snippet, classifyWords (wordsOf h.snippet), h.url⟩,
     (((provider query).take maxResults).filter fun h =>
        memStr authorized (urlDomain h.url)).map fun h => h.url,
     false⟩

/-- C1: every URL in the urlsFound of a search_and_process outcome has its
domain on the allow-list of authorized domains, and whenever the provider
yields zero authorized results the returned document set is exactly the
non-empty built-in fallback set of the detected query domain. -/
theorem search_and_process_respects_allowlist (authorized : List String)
    (provider : String → List SearchHit) (query : String) (maxResults : Nat) :
    (∀ u ∈ (search_and_process authorized provider query maxResults).urlsFound,
        urlDomain u ∈ authorized) ∧
      ((((provider query).take maxResults).filter fun h =>
          memStr authorized (urlDomain h.url)) = [] →
        (search_and_process authorized provider query maxResults).documents
            = fallbackDocs (detectDomain query) ∧
          (search_and_process authorized provider query maxResults).documents ≠ []) := by
  constructor
  · intro u hu
    by_cases hc : (((provider query).take maxResults).filter fun h =>
        memStr authorized (urlDomain h.url)).isEmpty
    · simp [search_and_process, hc] at hu
    · simp only [search_and_process, hc, if_false, Bool.false_eq_true] at hu
      simp only [List.mem_map] at hu
      obtain ⟨h, hh, rfl⟩ := hu
      have := (List.mem_filter.mp hh).2
      exact (memStr_eq_mem authorized (urlDomain h.url)).mp this
  · intro hemp
    have hc : (((provider query).take maxResults).filter fun h =>
        memStr authorized (urlDomain h.url)).isEmpty := by
      simp [hemp]
    refine ⟨?_, ?_⟩
    · simp [search_and_process, hc]
    · simp [search_and_process, hc]
      exact fallbackDocs_ne_nil _

/-- Witness for C1: a single-domain allow-list and a provider whose only hit
is on an unauthorized blog domain, for a statute-flavoured query. -/
theorem search_and_process_respects_allowlist_witness :
    (∀ u ∈ (search_and_process ["www.law.cornell.edu"]
        (fun _ => [⟨"https://www.exampleblog.com/post", "Blog", "musings"⟩])
        "landlord statute duties" 5).urlsFound,
      urlDomain u ∈ ["www.law.cornell.edu"]) ∧
      (search_and_process ["www.law.cornell.edu"]
          (fun _ => [⟨"https://www.exampleblog.com/post", "Blog", "musings"⟩])
          "landlord statute duties" 5).documents
        = fallbackDocs (detectDomain "landlord statute duties") ∧
      (search_and_process ["www.law.cornell.edu"]
          (fun _ => [⟨"https://www.exampleblog.com/post", "Blog", "musings"⟩])
          "landlord statute duties" 5).documents ≠ [] :=
  ⟨(search_and_process_respects_allowlist ["www.law.cornell.edu"]
      (fun _ => [⟨"https://www.exampleblog.com/post", "Blog", "musings"⟩])
      "landlord statute duties" 5).1,
   (search_and_process_respects_allowlist ["www.law.cornell.edu"]
      (fun _ => [⟨"https://www.exampleblog.com/post", "Blog", "musings"⟩])
      "landlord statute duties" 5).2 (by decide)⟩

end GenAiGenesis
